import Mathlib

/-!
Verification of the rusEfi electronic-throttle / limp-manager core
(`firmware/controllers/actuators/electronic_throttle.cpp` and the
limp-manager translation unit bundled with it).

Floating point (`float` / `percent_t`) is modelled by `ℚ`; machine enums are
modelled by Lean inductives; `expected<T>` is modelled by a `Valid`/`Value`
structure; mutable member state is modelled by explicit state-passing record
updates; external collaborators (sensor registry, lookup tables, PID, timers'
clock) are supplied through environment records.  Side effects to TunerStudio
output channels, console logging and `firmwareError` reporting are not part
of the modelled state.
-/

namespace Rusefi

/-- dc_function_e: which actuator a DC motor controller drives. -/
inductive dc_function_e
| DC_None
| DC_Throttle1
| DC_Throttle2
| DC_IdleValve
| DC_Wastegate
deriving DecidableEq, Repr

/-- The subset of SensorType used by the electronic throttle / limp manager code. -/
inductive SensorType
| Tps1
| Tps2
| IdlePosition
| WastegatePosition
| AcceleratorPedal
| Rpm
| VehicleSpeed
| WheelSlipRatio
| Invalid
deriving DecidableEq, Repr

/-- functionToPositionSensor (electronic_throttle.cpp): DC function to its feedback sensor. -/
def functionToPositionSensor : dc_function_e → SensorType
| .DC_Throttle1 => .Tps1
| .DC_Throttle2 => .Tps2
| .DC_IdleValve => .IdlePosition
| .DC_Wastegate => .WastegatePosition
| .DC_None => .Invalid

/-- functionToTpsSensor (electronic_throttle.cpp): Throttle1 uses Tps1, anything else Tps2. -/
def functionToTpsSensor : dc_function_e → SensorType
| .DC_Throttle1 => .Tps1
| _ => .Tps2

/-- Modelled from the spec: `EtbController::isEtbMode` lives in
`electronic_throttle_impl.h` which is not part of the sources; per spec section 3
the true ETB functions are Throttle1 and Throttle2, while idle valve and
wastegate are the non-ETB functions. -/
def isEtbMode : dc_function_e → Bool
| .DC_Throttle1 => true
| .DC_Throttle2 => true
| _ => false

/-- TpsState fault codes stored into etbErrorCode (numeric int8 values abstracted;
only constructor identity is used by the code under verification). -/
inductive TpsState
| None
| EngineStopped
| TpsError
| PpsError
| IntermittentTps
| IntermittentPps
| Redundancy
| Lua
| Manual
deriving DecidableEq, Repr

/-- ClearReason: the tagged cause attached to every cleared permission. -/
inductive ClearReason
| None
| IgnitionOff
| Lua
| ACR
| GdiComms
| HardLimit
| LambdaProtection
| EnginePhase
| FaultRevLimit
| BoostCut
| OilPressure
| InjectorDutyCycle
| FloodClear
| LaunchCut
| StopRequested
| EtbProblem
| Fatal
deriving DecidableEq, Repr

/-- A permission flag tagged with the reason it was last cleared. -/
structure Clearable where
  value : Bool
  clearReason : ClearReason
deriving DecidableEq, Repr

/-- Modelled from the spec: class Clearable (limp_manager.h, not in the sources) —
an "independently clearable" permission flag "each tagged with a reason"
(spec section 2/3); clearing a set flag drops it to false and records the
reason, and no operation of the class sets a cleared flag back. -/
def Clearable.clear (c : Clearable) (r : ClearReason) : Clearable :=
  if c.value then { value := false, clearReason := r } else c

/-- Construction from a configuration boolean (`Clearable allowFuel = ...;`). -/
def Clearable.ofBool (b : Bool) : Clearable :=
  { value := b, clearReason := .None }

/-- Modelled from the spec: clampF (efilib header, not in the sources) clamps a
value into a closed interval. -/
def clampF (lo x hi : ℚ) : ℚ := max lo (min x hi)

/-- minF (efilib): minimum of two values. -/
def minF (a b : ℚ) : ℚ := min a b

/-- absF (efilib): absolute value. -/
def absF (x : ℚ) : ℚ := |x|

/-- minI (efilib): minimum of two integers. -/
def minI (a b : ℤ) : ℤ := min a b

/-- clampPercentValue (efilib): clamp a percentage into [0, 100]. -/
def clampPercentValue (x : ℚ) : ℚ := clampF 0 x 100

/-- Modelled from the spec: interpolateClamped (efilib, not in the sources) —
linear interpolation between (x1, y1) and (x2, y2), held constant at the
endpoint values outside [x1, x2]. -/
def interpolateClamped (x1 y1 x2 y2 x : ℚ) : ℚ :=
  if x ≤ x1 then y1
  else if x2 ≤ x then y2
  else y1 + (y2 - y1) / (x2 - x1) * (x - x1)

/-- Modelled from the spec: Hysteresis::test on a measured value (efilib header,
not in the sources) — engage at or above the rising threshold, release at or
below the falling threshold, otherwise keep the previous state
(spec: "asymmetric engage/release thresholds"). -/
def hysteresisTest (state : Bool) (value rise fall : ℚ) : Bool :=
  if rise ≤ value then true
  else if value ≤ fall then false
  else state

/-- Modelled from the spec: Hysteresis::test on precomputed conditions — engage
while the rising condition holds, release on the falling condition, otherwise
keep the previous state. -/
def hysteresisTestBool (state rise fall : Bool) : Bool :=
  if rise then true
  else if fall then false
  else state

/-- Modelled from the spec: Hysteresis::checkIfLimitIsExceeded — engage above the
limit, require a drop of `hyst` below the limit to release. -/
def checkIfLimitIsExceeded (state : Bool) (value limit hyst : ℚ) : Bool :=
  hysteresisTest state value limit (limit - hyst)

/-- Modelled from the spec: Timer::hasElapsedSec — a timer stores the instant of
its last reset and compares the elapsed time against a threshold. -/
def timerHasElapsedSec (lastReset now sec : ℚ) : Bool :=
  decide (sec < now - lastReset)

/-- vvt_mode_e, reduced to the distinction the limp manager makes. -/
inductive vvt_mode_e
| VVT_INACTIVE
| VVT_MAP_V_TWIN
| VVT_OTHER
deriving DecidableEq, Repr

/-- Engine rotation operation modes distinguished by noFiringUntilVvtSync. -/
inductive operation_mode_e
| FOUR_STROKE_CRANK_SENSOR
| FOUR_STROKE_SYMMETRICAL_CRANK_SENSOR
| FOUR_STROKE_THREE_TIMES_CRANK_SENSOR
| FOUR_STROKE_TWELVE_TIMES_CRANK_SENSOR
| TWO_STROKE
deriving DecidableEq, Repr

/-- noFiringUntilVvtSync (limp manager translation unit): whether firing must wait
for cam sync.  The GDI misconfiguration branch raises a critical error on real
hardware and is not part of the modelled result. -/
def noFiringUntilVvtSync (vvtMode : vvt_mode_e) (operationMode : operation_mode_e)
    (isPhaseSyncRequiredForIgnition : Bool) : Bool :=
  if vvtMode == .VVT_MAP_V_TWIN then true
  else if isPhaseSyncRequiredForIgnition then true
  else operationMode == .FOUR_STROKE_SYMMETRICAL_CRANK_SENSOR
    || operationMode == .FOUR_STROKE_THREE_TIMES_CRANK_SENSOR
    || operationMode == .FOUR_STROKE_TWELVE_TIMES_CRANK_SENSOR

/-- The LimpManager member state.  Timers are stored as the rational instant of
their last reset; Hysteresis objects as their boolean state. -/
structure LimpManager where
  m_allowEtb : Clearable
  m_allowIgnition : Clearable
  m_allowInjection : Clearable
  m_allowTriggerInput : Clearable
  m_transientAllowInjection : Clearable
  m_transientAllowIgnition : Clearable
  m_faultRevLimit : ℤ
  m_revLimit : ℚ
  resumeRpm : ℚ
  m_timingRetard : ℚ
  m_fuelCorrection : ℚ
  m_hadOilPressureAfterStart : Bool
  m_revLimitHysteresisState : Bool
  m_boostCutHysteresisState : Bool
  m_injectorDutyCutHysteresisState : Bool
  m_lowOilPressureTimer : ℚ
  m_injectorDutySustainedTimer : ℚ
  m_lastCutTime : ℚ
  m_ignitionOn : Bool

/-- Everything LimpManager::updateState reads from configuration, sensors and the
other engine modules on one fast tick.  Lookup tables are abstracted as
functions. -/
structure LimpEnv where
  isInjectionEnabled : Bool
  isIgnitionEnabled : Bool
  directSelfStimulation : Bool
  isGdiEngine : Bool
  externalRusEfiGdiModule : Bool
  externalGdiCanBusCommsElapsed : ℚ
  luaIgnCut : Bool
  luaFuelCut : Bool
  acrActive : Bool
  cutFuelInAcr : Bool
  useCltBasedRpmLimit : Bool
  clt : ℚ
  cltRevLimitLookup : ℚ → ℚ
  rpmHardLimit : ℚ
  rpmHardLimitHyst : ℚ
  rpmSoftLimitTimingRetard : ℚ
  rpmSoftLimitFuelAdded : ℚ
  cutFuelOnHardLimit : Bool
  cutSparkOnHardLimit : Bool
  lambdaMonitorCut : Bool
  vvtMode0 : vvt_mode_e
  operationMode : operation_mode_e
  isPhaseSyncRequiredForIgnition : Bool
  hasSynchronizedPhase : Bool
  boostCutPressure : ℚ
  boostCutPressureHyst : ℚ
  mapSensor : ℚ
  isEngineRunning : Bool
  hasOilpSensor : Bool
  oilPressure : Option ℚ
  minOilPressureAfterStart : ℚ
  secondsSinceEngineStart : ℚ
  enableOilPressureProtect : Bool
  minimumOilPressureLookup : ℚ → ℚ
  minimumOilPressureTimeout : ℚ
  isEngineStop : Bool
  injectorDutyCycle : ℚ
  maxInjectorDutyInstant : ℚ
  maxInjectorDutySustained : ℚ
  maxInjectorDutySustainedTimeout : ℚ
  isCylinderCleanupEnabled : Bool
  driverThrottleIntent : ℚ
  isMainRelayEnabled : Bool
  launchFuelRpmRetardCondition : Bool
  launchSparkRpmRetardCondition : Bool

/-- LimpManager::updateRevLimit: derive the hard rev limit, the resume RPM and
the soft-limit timing/fuel corrections from configuration and current RPM. -/
def LimpManager.updateRevLimit (s : LimpManager) (rpm : ℚ) (env : LimpEnv) : LimpManager :=
  let revLimit := if env.useCltBasedRpmLimit then env.cltRevLimitLookup env.clt else env.rpmHardLimit
  let resume := revLimit - env.rpmHardLimitHyst
  let timingRetard := interpolateClamped resume 0 revLimit env.rpmSoftLimitTimingRetard rpm
  let fuelAdded := interpolateClamped resume 0 revLimit env.rpmSoftLimitFuelAdded rpm
  { s with m_revLimit := revLimit
           resumeRpm := resume
           m_timingRetard := timingRetard
           m_fuelCorrection := 1 + fuelAdded / 100 }

/-- LimpManager::updateState, one fast tick.  The C++ clears two local
`Clearable`s (`allowFuel` / `allowSpark`) through a fixed sequence of veto
conditions and finally publishes them into the two transient flags; the
in-place member mutations (timers, hysteresis states, oil-pressure latch) are
flattened into a single record update.  The four persistent permission flags
are read nowhere and written nowhere here. -/
def LimpManager.updateState (s : LimpManager) (rpm nowNt : ℚ) (env : LimpEnv) : LimpManager :=
  let allowFuel := Clearable.ofBool env.isInjectionEnabled
  let allowSpark := Clearable.ofBool env.isIgnitionEnabled
  let allowFuel := if !s.m_ignitionOn && !env.directSelfStimulation then allowFuel.clear .IgnitionOff else allowFuel
  let allowSpark := if !s.m_ignitionOn && !env.directSelfStimulation then allowSpark.clear .IgnitionOff else allowSpark
  let allowFuel :=
    if env.isGdiEngine && env.externalRusEfiGdiModule && decide (1 < env.externalGdiCanBusCommsElapsed)
    then allowFuel.clear .GdiComms else allowFuel
  let allowSpark := if env.luaIgnCut then allowSpark.clear .Lua else allowSpark
  let allowFuel := if env.luaFuelCut then allowFuel.clear .Lua else allowFuel
  let allowFuel := if env.acrActive && env.cutFuelInAcr then allowFuel.clear .ACR else allowFuel
  let s1 := s.updateRevLimit rpm env
  let revLimitHysteresisState := hysteresisTest s1.m_revLimitHysteresisState rpm s1.m_revLimit s1.resumeRpm
  let allowFuel := if revLimitHysteresisState && env.cutFuelOnHardLimit then allowFuel.clear .HardLimit else allowFuel
  let allowSpark := if revLimitHysteresisState && env.cutSparkOnHardLimit then allowSpark.clear .HardLimit else allowSpark
  let allowFuel := if env.lambdaMonitorCut then allowFuel.clear .LambdaProtection else allowFuel
  let vvtBlock := noFiringUntilVvtSync env.vvtMode0 env.operationMode env.isPhaseSyncRequiredForIgnition
                    && !env.hasSynchronizedPhase
  let allowFuel := if vvtBlock then allowFuel.clear .EnginePhase else allowFuel
  let allowSpark := if vvtBlock then allowSpark.clear .EnginePhase else allowSpark
  let allowFuel := if decide ((s1.m_faultRevLimit : ℚ) < rpm) then allowFuel.clear .FaultRevLimit else allowFuel
  let boostCutHysteresisState :=
    if env.boostCutPressure ≠ 0 then
      checkIfLimitIsExceeded s1.m_boostCutHysteresisState env.mapSensor env.boostCutPressure env.boostCutPressureHyst
    else s1.m_boostCutHysteresisState
  let allowFuel :=
    if decide (env.boostCutPressure ≠ 0) && boostCutHysteresisState
    then allowFuel.clear .BoostCut else allowFuel
  let hadOilPressureAfterStart :=
    if env.isEngineRunning then
      if decide (0 < env.minOilPressureAfterStart) && env.hasOilpSensor
         && !(decide (5 < env.secondsSinceEngineStart)) then
        match env.oilPressure with
        | some p => if env.minOilPressureAfterStart < p then true else s1.m_hadOilPressureAfterStart
        | none => s1.m_hadOilPressureAfterStart
      else s1.m_hadOilPressureAfterStart
    else false
  let allowFuel :=
    if env.isEngineRunning && decide (0 < env.minOilPressureAfterStart) && env.hasOilpSensor
       && decide (5 < env.secondsSinceEngineStart) && !hadOilPressureAfterStart
    then allowFuel.clear .OilPressure else allowFuel
  let lowOilPressureTimer :=
    if env.isEngineRunning then
      match env.oilPressure with
      | some p =>
        if env.enableOilPressureProtect then
          if env.minimumOilPressureLookup rpm < p then nowNt else s1.m_lowOilPressureTimer
        else s1.m_lowOilPressureTimer
      | none => s1.m_lowOilPressureTimer
    else nowNt
  let allowFuel :=
    if env.isEngineRunning && env.oilPressure.isSome && env.enableOilPressureProtect
       && timerHasElapsedSec lowOilPressureTimer nowNt env.minimumOilPressureTimeout
    then allowFuel.clear .OilPressure else allowFuel
  let allowFuel := if env.isEngineStop then allowFuel.clear .StopRequested else allowFuel
  let isOverInstantDutyCycle := decide (env.maxInjectorDutyInstant < env.injectorDutyCycle)
  let isOverSustainedDutyCycle := decide (env.maxInjectorDutySustained < env.injectorDutyCycle)
  let isUnderLowDuty := decide (env.injectorDutyCycle < 20)
  let injectorDutySustainedTimer :=
    if !isOverSustainedDutyCycle then nowNt else s1.m_injectorDutySustainedTimer
  let sustainedLimitTimedOut :=
    timerHasElapsedSec injectorDutySustainedTimer nowNt env.maxInjectorDutySustainedTimeout
  let someLimitTripped := isOverInstantDutyCycle || sustainedLimitTimedOut
  let injectorDutyCutHysteresisState :=
    hysteresisTestBool s1.m_injectorDutyCutHysteresisState someLimitTripped isUnderLowDuty
  let allowFuel := if injectorDutyCutHysteresisState then allowFuel.clear .InjectorDutyCycle else allowFuel
  let allowFuel :=
    if !env.isEngineRunning && env.isCylinderCleanupEnabled && decide (90 < env.driverThrottleIntent)
    then allowFuel.clear .FloodClear else allowFuel
  let allowFuel := if env.launchFuelRpmRetardCondition then allowFuel.clear .LaunchCut else allowFuel
  let allowSpark := if env.launchSparkRpmRetardCondition then allowSpark.clear .LaunchCut else allowSpark
  let lastCutTime := if !allowFuel.value || !allowSpark.value then nowNt else s1.m_lastCutTime
  { s1 with m_transientAllowInjection := allowFuel
            m_transientAllowIgnition := allowSpark
            m_revLimitHysteresisState := revLimitHysteresisState
            m_boostCutHysteresisState := boostCutHysteresisState
            m_hadOilPressureAfterStart := hadOilPressureAfterStart
            m_lowOilPressureTimer := lowOilPressureTimer
            m_injectorDutySustainedTimer := injectorDutySustainedTimer
            m_injectorDutyCutHysteresisState := injectorDutyCutHysteresisState
            m_lastCutTime := lastCutTime }

/-- LimpManager::setFaultRevLimit: "Only allow decreasing the limit". -/
def LimpManager.setFaultRevLimit (s : LimpManager) (limit : ℤ) : LimpManager :=
  { s with m_faultRevLimit := minI s.m_faultRevLimit limit }

/-- LimpManager::fatalError: clear all four persistent permissions with reason
Fatal and pin the fault rev limit to 0. -/
def LimpManager.fatalError (s : LimpManager) : LimpManager :=
  let s := { s with m_allowEtb := s.m_allowEtb.clear .Fatal }
  let s := { s with m_allowIgnition := s.m_allowIgnition.clear .Fatal }
  let s := { s with m_allowInjection := s.m_allowInjection.clear .Fatal }
  let s := { s with m_allowTriggerInput := s.m_allowTriggerInput.clear .Fatal }
  s.setFaultRevLimit 0

/-- LimpManager::onIgnitionStateChanged. -/
def LimpManager.onIgnitionStateChanged (s : LimpManager) (ignitionOn : Bool) : LimpManager :=
  { s with m_ignitionOn := ignitionOn }

/-- LimpManager::allowElectronicThrottle. -/
def LimpManager.allowElectronicThrottle (s : LimpManager) : Bool :=
  s.m_allowEtb.value

/-- LimpManager::allowTriggerInput. -/
def LimpManager.allowTriggerInput (s : LimpManager) : Bool :=
  s.m_allowTriggerInput.value

/-- LimpState: the allow/deny answer with its reason. -/
structure LimpState where
  value : Bool
  reason : ClearReason
deriving DecidableEq, Repr

/-- LimpManager::allowInjection: persistent flag first, then the transient one. -/
def LimpManager.allowInjection (s : LimpManager) : LimpState :=
  if !s.m_allowInjection.value then { value := false, reason := s.m_allowInjection.clearReason }
  else if !s.m_transientAllowInjection.value then { value := false, reason := s.m_transientAllowInjection.clearReason }
  else { value := true, reason := .None }

/-- LimpManager::allowIgnition: persistent flag first, then the transient one. -/
def LimpManager.allowIgnition (s : LimpManager) : LimpState :=
  if !s.m_allowIgnition.value then { value := false, reason := s.m_allowIgnition.clearReason }
  else if !s.m_transientAllowIgnition.value then { value := false, reason := s.m_transientAllowIgnition.clearReason }
  else { value := true, reason := .None }

/-- The public operations of the limp manager, for reasoning about arbitrary
call sequences. -/
inductive LimpOp
| updateStateOp (rpm nowNt : ℚ) (env : LimpEnv)
| setFaultRevLimitOp (limit : ℤ)
| onIgnitionStateChangedOp (ignitionOn : Bool)
| fatalErrorOp

/-- Apply one limp-manager operation. -/
def limpApply (s : LimpManager) : LimpOp → LimpManager
| .updateStateOp rpm nowNt env => s.updateState rpm nowNt env
| .setFaultRevLimitOp limit => s.setFaultRevLimit limit
| .onIgnitionStateChangedOp b => s.onIgnitionStateChanged b
| .fatalErrorOp => s.fatalError

/-- Apply a sequence of limp-manager operations. -/
def limpRun (s : LimpManager) (ops : List LimpOp) : LimpManager :=
  ops.foldl limpApply s

/-- All four persistent permissions are down with reason Fatal. -/
def fatallyLatched (s : LimpManager) : Prop :=
  s.m_allowEtb = { value := false, clearReason := .Fatal } ∧
  s.m_allowIgnition = { value := false, clearReason := .Fatal } ∧
  s.m_allowInjection = { value := false, clearReason := .Fatal } ∧
  s.m_allowTriggerInput = { value := false, clearReason := .Fatal }

lemma updateState_preserves_persistent (s : LimpManager) (rpm nowNt : ℚ) (env : LimpEnv) :
    (s.updateState rpm nowNt env).m_allowEtb = s.m_allowEtb ∧
    (s.updateState rpm nowNt env).m_allowIgnition = s.m_allowIgnition ∧
    (s.updateState rpm nowNt env).m_allowInjection = s.m_allowInjection ∧
    (s.updateState rpm nowNt env).m_allowTriggerInput = s.m_allowTriggerInput :=
  ⟨rfl, rfl, rfl, rfl⟩

lemma clear_of_cleared (r r' : ClearReason) :
    Clearable.clear { value := false, clearReason := r } r' = { value := false, clearReason := r } := by
  simp [Clearable.clear]

lemma limpApply_preserves_latched (s : LimpManager) (op : LimpOp)
    (h : fatallyLatched s) : fatallyLatched (limpApply s op) := by
  obtain ⟨h1, h2, h3, h4⟩ := h
  cases op with
  | updateStateOp rpm nowNt env =>
    exact ⟨h1, h2, h3, h4⟩
  | setFaultRevLimitOp limit =>
    exact ⟨h1, h2, h3, h4⟩
  | onIgnitionStateChangedOp b =>
    exact ⟨h1, h2, h3, h4⟩
  | fatalErrorOp =>
    refine ⟨?_, ?_, ?_, ?_⟩ <;>
      simp [limpApply, LimpManager.fatalError, LimpManager.setFaultRevLimit,
            h1, h2, h3, h4, clear_of_cleared]

lemma limpRun_preserves_latched (ops : List LimpOp) (s : LimpManager)
    (h : fatallyLatched s) : fatallyLatched (limpRun s ops) := by
  induction ops generalizing s with
  | nil => exact h
  | cons op rest ih =>
    exact ih (limpApply s op) (limpApply_preserves_latched s op h)

/-- Claim C2: once LimpManager::fatalError has run, all four top-level permission
flags are cleared with reason Fatal, and no subsequent sequence of limp-manager
operations (updateState ticks, setFaultRevLimit, ignition-state changes, even
further fatalError calls) restores any of them: allowElectronicThrottle and
allowTriggerInput stay false and allowInjection / allowIgnition keep reporting
denial with reason Fatal. -/
theorem limp_fatalError_permanent (s : LimpManager) (ops : List LimpOp)
    (h1 : s.m_allowEtb.value = true) (h2 : s.m_allowIgnition.value = true)
    (h3 : s.m_allowInjection.value = true) (h4 : s.m_allowTriggerInput.value = true) :
    (limpRun s.fatalError ops).m_allowEtb = { value := false, clearReason := .Fatal } ∧
    (limpRun s.fatalError ops).m_allowIgnition = { value := false, clearReason := .Fatal } ∧
    (limpRun s.fatalError ops).m_allowInjection = { value := false, clearReason := .Fatal } ∧
    (limpRun s.fatalError ops).m_allowTriggerInput = { value := false, clearReason := .Fatal } ∧
    (limpRun s.fatalError ops).allowElectronicThrottle = false ∧
    (limpRun s.fatalError ops).allowTriggerInput = false ∧
    (limpRun s.fatalError ops).allowInjection = { value := false, reason := .Fatal } ∧
    (limpRun s.fatalError ops).allowIgnition = { value := false, reason := .Fatal } := by
  have hbase : fatallyLatched s.fatalError := by
    refine ⟨?_, ?_, ?_, ?_⟩ <;>
      simp [LimpManager.fatalError, LimpManager.setFaultRevLimit, Clearable.clear, h1, h2, h3, h4]
  obtain ⟨g1, g2, g3, g4⟩ := limpRun_preserves_latched ops s.fatalError hbase
  refine ⟨g1, g2, g3, g4, ?_, ?_, ?_, ?_⟩
  · simp [LimpManager.allowElectronicThrottle, g1]
  · simp [LimpManager.allowTriggerInput, g4]
  · simp [LimpManager.allowInjection, g3]
  · simp [LimpManager.allowIgnition, g2]

/-- A healthy concrete limp-manager state used by the witnesses. -/
def limpState0 : LimpManager :=
  { m_allowEtb := { value := true, clearReason := .None }
    m_allowIgnition := { value := true, clearReason := .None }
    m_allowInjection := { value := true, clearReason := .None }
    m_allowTriggerInput := { value := true, clearReason := .None }
    m_transientAllowInjection := { value := true, clearReason := .None }
    m_transientAllowIgnition := { value := true, clearReason := .None }
    m_faultRevLimit := 8000
    m_revLimit := 7000
    resumeRpm := 6800
    m_timingRetard := 0
    m_fuelCorrection := 1
    m_hadOilPressureAfterStart := false
    m_revLimitHysteresisState := false
    m_boostCutHysteresisState := false
    m_injectorDutyCutHysteresisState := false
    m_lowOilPressureTimer := 0
    m_injectorDutySustainedTimer := 0
    m_lastCutTime := 0
    m_ignitionOn := true }

/-- A concrete fast-tick environment used by the witnesses. -/
def limpEnv0 : LimpEnv :=
  { isInjectionEnabled := true
    isIgnitionEnabled := true
    directSelfStimulation := false
    isGdiEngine := false
    externalRusEfiGdiModule := false
    externalGdiCanBusCommsElapsed := 0
    luaIgnCut := false
    luaFuelCut := false
    acrActive := false
    cutFuelInAcr := false
    useCltBasedRpmLimit := false
    clt := 80
    cltRevLimitLookup := fun _ => 7000
    rpmHardLimit := 7000
    rpmHardLimitHyst := 200
    rpmSoftLimitTimingRetard := 0
    rpmSoftLimitFuelAdded := 0
    cutFuelOnHardLimit := true
    cutSparkOnHardLimit := true
    lambdaMonitorCut := false
    vvtMode0 := .VVT_INACTIVE
    operationMode := .FOUR_STROKE_CRANK_SENSOR
    isPhaseSyncRequiredForIgnition := false
    hasSynchronizedPhase := true
    boostCutPressure := 0
    boostCutPressureHyst := 20
    mapSensor := 100
    isEngineRunning := true
    hasOilpSensor := false
    oilPressure := none
    minOilPressureAfterStart := 0
    secondsSinceEngineStart := 10
    enableOilPressureProtect := false
    minimumOilPressureLookup := fun _ => 0
    minimumOilPressureTimeout := 1
    isEngineStop := false
    injectorDutyCycle := 40
    maxInjectorDutyInstant := 96
    maxInjectorDutySustained := 91
    maxInjectorDutySustainedTimeout := 1
    isCylinderCleanupEnabled := false
    driverThrottleIntent := 0
    isMainRelayEnabled := true
    launchFuelRpmRetardCondition := false
    launchSparkRpmRetardCondition := false }

/-- Witness for C2 at a concrete state and a concrete operation sequence. -/
theorem limp_fatalError_permanent_witness :
    (limpRun limpState0.fatalError
        [.updateStateOp 2000 1 limpEnv0, .setFaultRevLimitOp 5000,
         .onIgnitionStateChangedOp true, .fatalErrorOp,
         .updateStateOp 900 2 limpEnv0]).m_allowEtb = { value := false, clearReason := .Fatal } ∧
    (limpRun limpState0.fatalError
        [.updateStateOp 2000 1 limpEnv0, .setFaultRevLimitOp 5000,
         .onIgnitionStateChangedOp true, .fatalErrorOp,
         .updateStateOp 900 2 limpEnv0]).m_allowIgnition = { value := false, clearReason := .Fatal } ∧
    (limpRun limpState0.fatalError
        [.updateStateOp 2000 1 limpEnv0, .setFaultRevLimitOp 5000,
         .onIgnitionStateChangedOp true, .fatalErrorOp,
         .updateStateOp 900 2 limpEnv0]).m_allowInjection = { value := false, clearReason := .Fatal } ∧
    (limpRun limpState0.fatalError
        [.updateStateOp 2000 1 limpEnv0, .setFaultRevLimitOp 5000,
         .onIgnitionStateChangedOp true, .fatalErrorOp,
         .updateStateOp 900 2 limpEnv0]).m_allowTriggerInput = { value := false, clearReason := .Fatal } ∧
    (limpRun limpState0.fatalError
        [.updateStateOp 2000 1 limpEnv0, .setFaultRevLimitOp 5000,
         .onIgnitionStateChangedOp true, .fatalErrorOp,
         .updateStateOp 900 2 limpEnv0]).allowElectronicThrottle = false ∧
    (limpRun limpState0.fatalError
        [.updateStateOp 2000 1 limpEnv0, .setFaultRevLimitOp 5000,
         .onIgnitionStateChangedOp true, .fatalErrorOp,
         .updateStateOp 900 2 limpEnv0]).allowTriggerInput = false ∧
    (limpRun limpState0.fatalError
        [.updateStateOp 2000 1 limpEnv0, .setFaultRevLimitOp 5000,
         .onIgnitionStateChangedOp true, .fatalErrorOp,
         .updateStateOp 900 2 limpEnv0]).allowInjection = { value := false, reason := .Fatal } ∧
    (limpRun limpState0.fatalError
        [.updateStateOp 2000 1 limpEnv0, .setFaultRevLimitOp 5000,
         .onIgnitionStateChangedOp true, .fatalErrorOp,
         .updateStateOp 900 2 limpEnv0]).allowIgnition = { value := false, reason := .Fatal } :=
  limp_fatalError_permanent limpState0
    [.updateStateOp 2000 1 limpEnv0, .setFaultRevLimitOp 5000,
     .onIgnitionStateChangedOp true, .fatalErrorOp,
     .updateStateOp 900 2 limpEnv0] rfl rfl rfl rfl

/-- Apply a whole list of setFaultRevLimit calls. -/
def applyFaultRevLimits (s : LimpManager) (limits : List ℤ) : LimpManager :=
  limits.foldl LimpManager.setFaultRevLimit s

/-- Claim C3: across any sequence of setFaultRevLimit calls the fault rev limit
is monotonically non-increasing: each call leaves exactly
min(previous value, argument), hence the limit of the worst fault seen so far
persists and a whole call sequence can only lower the value. -/
theorem setFaultRevLimit_ratchet :
    (∀ (s : LimpManager) (limit : ℤ),
        (s.setFaultRevLimit limit).m_faultRevLimit = min s.m_faultRevLimit limit) ∧
    (∀ (s : LimpManager) (limit : ℤ),
        (s.setFaultRevLimit limit).m_faultRevLimit ≤ s.m_faultRevLimit) ∧
    (∀ (s : LimpManager) (limits : List ℤ),
        (applyFaultRevLimits s limits).m_faultRevLimit ≤ s.m_faultRevLimit) := by
  have hmin : ∀ (s : LimpManager) (limit : ℤ),
      (s.setFaultRevLimit limit).m_faultRevLimit = min s.m_faultRevLimit limit := by
    intro s limit
    simp [LimpManager.setFaultRevLimit, minI]
  have hle : ∀ (s : LimpManager) (limit : ℤ),
      (s.setFaultRevLimit limit).m_faultRevLimit ≤ s.m_faultRevLimit := by
    intro s limit
    rw [hmin]
    exact min_le_left _ _
  refine ⟨hmin, hle, ?_⟩
  intro s limits
  induction limits generalizing s with
  | nil => exact le_refl _
  | cons l rest ih =>
    calc (applyFaultRevLimits (s.setFaultRevLimit l) rest).m_faultRevLimit
        ≤ (s.setFaultRevLimit l).m_faultRevLimit := ih (s.setFaultRevLimit l)
      _ ≤ s.m_faultRevLimit := hle s l

/-- expected<percent_t>: rusEfi's value-or-invalid wrapper.  As in the C++
struct, `Value` is physically present even when `Valid` is false (it is then
unspecified; the model fixes it to whatever the producer stored, 0 for a fresh
`unexpected`). -/
structure Expected where
  Valid : Bool
  Value : ℚ
deriving DecidableEq, Repr

/-- The `unexpected` constant. -/
def Expected.unexpected : Expected := { Valid := false, Value := 0 }

/-- Implicit conversion from a valid value. -/
def Expected.ofValue (v : ℚ) : Expected := { Valid := true, Value := v }

/-- pid_s: PID configuration parameters (value object; the PID computation
itself is an external collaborator). -/
structure pid_s where
  pFactor : ℚ
  iFactor : ℚ
  dFactor : ℚ
  offset : ℚ
  periodMs : ℚ
  minValue : ℚ
  maxValue : ℚ
deriving DecidableEq, Repr

/-- Modelled from the spec: ETB_LOOP_FREQUENCY comes from a header that is not
in the sources; the spec only fixes it as "a fixed high rate (hundreds of Hz)".
The concrete number is irrelevant to every claim. -/
def ETB_LOOP_FREQUENCY : ℚ := 500

/-- etbPeriodSeconds = 1 / ETB_LOOP_FREQUENCY. -/
def etbPeriodSeconds : ℚ := 1 / ETB_LOOP_FREQUENCY

/-- ETB_DUTY_LIMIT = 0.9. -/
def ETB_DUTY_LIMIT : ℚ := 9/10

/-- ETB_PERCENT_TO_DUTY: clamp a signed percentage into a duty within
[-0.9, 0.9]. -/
def ETB_PERCENT_TO_DUTY (x : ℚ) : ℚ :=
  clampF (-ETB_DUTY_LIMIT) (1/100 * x) ETB_DUTY_LIMIT

/-- PERCENT_DIV = 0.01. -/
def PERCENT_DIV : ℚ := 1/100

/-- The EtbController member state.  The pedal-map provider pointer is
abstracted to a presence flag (the lookup function itself is supplied in the
environment); rolling-average trackers, PID internals and the error
accumulator are external collaborators, so only the published fields are
kept.  Timers store the instant of their last reset. -/
structure EtbState where
  m_function : dc_function_e
  m_positionSensor : SensorType
  m_motor : Bool
  m_pidParams : Option pid_s
  m_pedalProvider : Bool
  m_errorAccumulatorIgnore : ℚ
  m_errorAccumulatorPeriod : ℚ
  m_shouldResetPid : Bool
  etbDutyRateOfChange : ℚ
  etbDutyAverage : ℚ
  m_dutyRocAverage : ℚ
  m_dutyAverage : ℚ
  etbTpsErrorCounter : ℕ
  etbPpsErrorCounter : ℕ
  hadTpsError : Bool
  hadPpsError : Bool
  etbErrorCode : TpsState
  m_isAutotune : Bool
  m_idlePosition : ℚ
  m_wastegatePosition : ℚ
  luaAdjustment : ℚ
  m_luaAdjustmentTimer : ℚ
  etbRevLimitActive : Bool
  etbCurrentTarget : ℚ
  targetWithIdlePosition : ℚ
  etbCurrentAdjustedTarget : ℚ
  trim : ℚ
  tcEtbDrop : ℚ
  etbFeedForward : ℚ
  etbIntegralError : ℚ
  prevOutput : ℚ
  pidITermMin : ℚ
  pidITermMax : ℚ
  m_lastIsPositive : Bool
  m_autotuneCycleStart : ℚ
  m_minCycleTps : ℚ
  m_maxCycleTps : ℚ
  m_a : ℚ
  m_tu : ℚ

/-- The engineConfiguration fields read by the throttle controller. -/
structure EtbConfig where
  etbIdleThrottleRange : ℚ
  ALSEtbAdd : ℚ
  etbRevLimitStart : ℚ
  etbRevLimitRange : ℚ
  etbMinimumPosition : ℚ
  etbMaximumPosition : ℚ
  pauseEtbControl : Bool
  etb_iTermMin : ℚ
  etb_iTermMax : ℚ
  disableEtbWhenEngineStopped : Bool

/-- Everything the throttle controller reads from the outside world on one
cycle: the sensor registry, the lookup tables, the antilag and autotune
switches, the Lua flags, the external PID / averaging primitives and the
current time. -/
structure EtbEnv where
  sensorGet : SensorType → Option ℚ
  pedalMap : ℚ → ℚ → ℚ
  throttleTrimTable : ℚ → ℚ → ℚ
  tcEtbDropTable : ℚ → ℚ → ℚ
  etbBiasCurve : ℚ → ℚ
  isAntilagCondition : Bool
  etbAutoTune : Bool
  analogSensorsShouldWork : Bool
  engineMovedRecently : Bool
  luaDisableEtb : Bool
  directPwmValue : Option ℚ
  now : ℚ
  pidOutput : ℚ → ℚ → ℚ
  errorAccumulate : ℚ → ℚ
  expAverageDuty : ℚ → ℚ
  expAverageRoc : ℚ → ℚ

/-- Sensor::getOrZero. -/
def sensorGetOrZero (env : EtbEnv) (t : SensorType) : ℚ :=
  (env.sensorGet t).getD 0

/-- Motor actions issued on one call (the disable constructors carry the
label passed to DcMotor::disable). -/
inductive MotorCommand
| noAction
| enableAndSet (duty : ℚ)
| disableNoEtb
| disableEtbStatus
| setDirect (duty : ℚ)
deriving DecidableEq, Repr

/-- EtbController::reset. -/
def EtbController.reset (s : EtbState) : EtbState :=
  { s with m_shouldResetPid := true
           etbDutyRateOfChange := 0
           etbDutyAverage := 0
           m_dutyRocAverage := 0
           m_dutyAverage := 0
           etbTpsErrorCounter := 0
           etbPpsErrorCounter := 0 }

/-- The part of the world EtbController::init consults. -/
structure SensorEnv where
  hasSensor : SensorType → Bool
  isRedundant : SensorType → Bool

/-- EtbController::init.  Mirrors the source exactly: for a non-None function,
`m_function` and `m_positionSensor` are assigned before the pedal / sensor /
redundancy validations, so they are already updated when a validation fails;
the motor, PID, pedal provider and error accumulator are only attached on the
all-checks-passed path, which ends in reset(). -/
def EtbController.init (s : EtbState) (function : dc_function_e) (motor : Bool)
    (pidParameters : pid_s) (pedalProvider hasPedal : Bool) (senv : SensorEnv) :
    Bool × EtbState :=
  if function = .DC_None then
    (false, { s with etbErrorCode := TpsState.None })
  else
    let s1 := { s with m_function := function
                       m_positionSensor := functionToPositionSensor function }
    if isEtbMode function && !hasPedal then
      (false, { s1 with etbErrorCode := TpsState.None })
    else if isEtbMode function && !senv.hasSensor (functionToTpsSensor function) then
      (false, { s1 with etbErrorCode := TpsState.TpsError })
    else if isEtbMode function && !senv.isRedundant s1.m_positionSensor then
      (false, { s1 with etbErrorCode := TpsState.Redundancy })
    else if isEtbMode function && !senv.isRedundant SensorType.AcceleratorPedal then
      (false, { s1 with etbErrorCode := TpsState.Redundancy })
    else
      (true, EtbController.reset
        { s1 with m_motor := motor
                  m_pidParams := some pidParameters
                  m_pedalProvider := pedalProvider
                  m_errorAccumulatorIgnore := 3
                  m_errorAccumulatorPeriod := etbPeriodSeconds })

/-- EtbController::setIdlePosition. -/
def EtbController.setIdlePosition (s : EtbState) (pos : ℚ) : EtbState :=
  { s with m_idlePosition := pos }

/-- EtbController::setWastegatePosition. -/
def EtbController.setWastegatePosition (s : EtbState) (pos : ℚ) : EtbState :=
  { s with m_wastegatePosition := pos }

/-- EtbController::setLuaAdjustment: store the value and reset the freshness
timer to the current instant. -/
def EtbController.setLuaAdjustment (s : EtbState) (adjustment nowSec : ℚ) : EtbState :=
  { s with luaAdjustment := adjustment
           m_luaAdjustmentTimer := nowSec }

/-- EtbController::getLuaAdjustment: ignore the stored adjustment once it is
older than 0.2 seconds. -/
def EtbController.getLuaAdjustment (s : EtbState) (nowSec : ℚ) : ℚ :=
  if (1 : ℚ)/5 < nowSec - s.m_luaAdjustmentTimer then 0
  else s.luaAdjustment

/-- getSanitizedPedal: a failed pedal sensor reads as 0 (throttle closed). -/
def getSanitizedPedal (env : EtbEnv) : ℚ :=
  clampPercentValue ((env.sensorGet .AcceleratorPedal).getD 0)

/-- boardAdjustEtbTarget: the weak default in this file is the identity. -/
def boardAdjustEtbTarget (currentEtbTarget : ℚ) : ℚ := currentEtbTarget

/-- EtbController::getSetpointEtb, returning the setpoint together with the
updated published fields.  The sequence mirrors the source: pedal-table
lookup, idle-range compression, Lua adjustment, antilag addition,
traction-control drop and trim, clamp to [0,100], optional rev-limit taper
(also refreshing etbRevLimitActive), final clamp into
[etbMinimumPosition, min(etbMaximumPosition, 100)]. -/
def EtbController.getSetpointEtb (s : EtbState) (cfg : EtbConfig) (env : EtbEnv) :
    Expected × EtbState :=
  if s.m_isAutotune then (Expected.ofValue 50, s)
  else if !s.m_pedalProvider then (Expected.unexpected, s)
  else
    let sanitizedPedal := getSanitizedPedal env
    let rpm := sensorGetOrZero env .Rpm
    let etbCurrentTarget := env.pedalMap rpm sanitizedPedal
    let etbIdlePosition := clampPercentValue s.m_idlePosition
    let etbIdleAddition := PERCENT_DIV * cfg.etbIdleThrottleRange * etbIdlePosition
    let targetWithIdlePosition := interpolateClamped 0 etbIdleAddition 100 100 etbCurrentTarget
    let targetPosition0 := boardAdjustEtbTarget (targetWithIdlePosition + EtbController.getLuaAdjustment s env.now)
    let targetPosition1 := if env.isAntilagCondition then targetPosition0 + cfg.ALSEtbAdd else targetPosition0
    let vehicleSpeed := sensorGetOrZero env .VehicleSpeed
    let wheelSlip := sensorGetOrZero env .WheelSlipRatio
    let tcEtbDrop := env.tcEtbDropTable wheelSlip vehicleSpeed
    let trim := clampF (-10) (env.throttleTrimTable rpm targetPosition1) 10
    let targetPosition2 := targetPosition1 + trim + tcEtbDrop
    let targetPosition3 := clampPercentValue targetPosition2
    let targetPosition4 :=
      if cfg.etbRevLimitStart ≠ 0 then
        interpolateClamped cfg.etbRevLimitStart targetPosition3
          (cfg.etbRevLimitStart + cfg.etbRevLimitRange) 0 rpm
      else targetPosition3
    let etbRevLimitActive :=
      if cfg.etbRevLimitStart ≠ 0 then
        decide ((1 : ℚ)/10 < absF (targetPosition4 - targetPosition3))
      else s.etbRevLimitActive
    let maxPosition := minF cfg.etbMaximumPosition 100
    let targetPosition5 := clampF cfg.etbMinimumPosition targetPosition4 maxPosition
    (Expected.ofValue targetPosition5,
      { s with etbCurrentTarget := etbCurrentTarget
               targetWithIdlePosition := targetWithIdlePosition
               tcEtbDrop := tcEtbDrop
               trim := trim
               etbRevLimitActive := etbRevLimitActive
               etbCurrentAdjustedTarget := targetPosition5 })

/-- The intermediate `targetPosition` of getSetpointEtb just before the
rev-limit taper (the value the source computes through the clamp to [0,100]);
named so that the taper stage can be specified against it. -/
def EtbController.getSetpointEtbPreTaper (s : EtbState) (cfg : EtbConfig) (env : EtbEnv) : ℚ :=
  let sanitizedPedal := getSanitizedPedal env
  let rpm := sensorGetOrZero env .Rpm
  let etbCurrentTarget := env.pedalMap rpm sanitizedPedal
  let etbIdlePosition := clampPercentValue s.m_idlePosition
  let etbIdleAddition := PERCENT_DIV * cfg.etbIdleThrottleRange * etbIdlePosition
  let targetWithIdlePosition := interpolateClamped 0 etbIdleAddition 100 100 etbCurrentTarget
  let targetPosition0 := boardAdjustEtbTarget (targetWithIdlePosition + EtbController.getLuaAdjustment s env.now)
  let targetPosition1 := if env.isAntilagCondition then targetPosition0 + cfg.ALSEtbAdd else targetPosition0
  let vehicleSpeed := sensorGetOrZero env .VehicleSpeed
  let wheelSlip := sensorGetOrZero env .WheelSlipRatio
  let tcEtbDrop := env.tcEtbDropTable wheelSlip vehicleSpeed
  let trim := clampF (-10) (env.throttleTrimTable rpm targetPosition1) 10
  let targetPosition2 := targetPosition1 + trim + tcEtbDrop
  clampPercentValue targetPosition2

/-- The idle-range compression step of getSetpointEtb: interpolate the table
target from [0, 100] onto [idleAddition, 100]. -/
def idleCompression (idleAddition target : ℚ) : ℚ :=
  interpolateClamped 0 idleAddition 100 100 target

/-- EtbController::getSetpointIdleValve. -/
def EtbController.getSetpointIdleValve (s : EtbState) : Expected :=
  Expected.ofValue (clampPercentValue s.m_idlePosition)

/-- EtbController::getSetpointWastegate. -/
def EtbController.getSetpointWastegate (s : EtbState) : Expected :=
  Expected.ofValue (clampPercentValue s.m_wastegatePosition)

/-- EtbController::getSetpoint: dispatch by function. -/
def EtbController.getSetpoint (s : EtbState) (cfg : EtbConfig) (env : EtbEnv) :
    Expected × EtbState :=
  match s.m_function with
  | .DC_Throttle1 => EtbController.getSetpointEtb s cfg env
  | .DC_Throttle2 => EtbController.getSetpointEtb s cfg env
  | .DC_IdleValve => (EtbController.getSetpointIdleValve s, s)
  | .DC_Wastegate => (EtbController.getSetpointWastegate s, s)
  | .DC_None => (Expected.unexpected, s)

/-- EtbController::observePlant: read the position sensor. -/
def EtbController.observePlant (s : EtbState) (env : EtbEnv) : Expected :=
  match env.sensorGet s.m_positionSensor with
  | some v => Expected.ofValue v
  | none => Expected.unexpected

/-- EtbController::getOpenLoop: feed-forward from the bias curve for real
throttles, zero for wastegate / idle valve. -/
def EtbController.getOpenLoop (s : EtbState) (env : EtbEnv) (target : ℚ) :
    Expected × EtbState :=
  let ff :=
    if decide (s.m_function ≠ .DC_Wastegate) && decide (s.m_function ≠ .DC_IdleValve) then
      env.etbBiasCurve target
    else 0
  (Expected.ofValue ff, { s with etbFeedForward := ff })

/-- EtbController::getClosedLoopAutotune: relay (bang-bang) control.  The
TunerStudio-only bookkeeping (cycle counter, P-I-D round robin, debug
channels) has no effect on the modelled state and is omitted. -/
def EtbController.getClosedLoopAutotune (s : EtbState) (env : EtbEnv)
    (target actualThrottlePosition : ℚ) : Expected × EtbState :=
  let isPositive := decide (target < actualThrottlePosition)
  let autotuneAmplitude : ℚ := 20
  let s1 :=
    if !isPositive && s.m_lastIsPositive then
      let tu := env.now - s.m_autotuneCycleStart
      let a := s.m_maxCycleTps - s.m_minCycleTps
      let alpha : ℚ := 1/20
      { s with m_a := alpha * a + (1 - alpha) * s.m_a
               m_tu := alpha * tu + (1 - alpha) * s.m_tu
               m_minCycleTps := 100
               m_maxCycleTps := 0
               m_autotuneCycleStart := env.now }
    else s
  let s2 := { s1 with m_lastIsPositive := isPositive }
  let s3 := if actualThrottlePosition < s2.m_minCycleTps then { s2 with m_minCycleTps := actualThrottlePosition } else s2
  let s4 := if s3.m_maxCycleTps < actualThrottlePosition then { s3 with m_maxCycleTps := actualThrottlePosition } else s3
  (Expected.ofValue (autotuneAmplitude * (if isPositive then -1 else 1)), s4)

/-- EtbController::getClosedLoop: reset the PID if flagged, accumulate the
integral position error (the over-limit escalation is commented out in the
source), then delegate to the external PID (or the relay autotune). -/
def EtbController.getClosedLoop (s : EtbState) (env : EtbEnv)
    (target observation : ℚ) : Expected × EtbState :=
  let s1 := if s.m_shouldResetPid then { s with m_shouldResetPid := false } else s
  if s1.m_isAutotune then
    EtbController.getClosedLoopAutotune s1 env target observation
  else
    let s2 := { s1 with etbIntegralError := env.errorAccumulate (target - observation) }
    (Expected.ofValue (env.pidOutput target observation), s2)

/-- EtbController::setOutput: the single gate between safety state and
actuation.  With a motor attached, the motor is enabled and driven with the
clamped duty exactly when the function is non-ETB or the limp manager
currently allows ETB, the output is valid and the pause flag is clear;
otherwise it is disabled with the no-ETB label. -/
def EtbController.setOutput (s : EtbState) (limp : LimpManager) (cfg : EtbConfig)
    (outputValue : Expected) : MotorCommand :=
  if !s.m_motor then .noAction
  else if !(isEtbMode s.m_function)
       || (limp.allowElectronicThrottle && outputValue.Valid && !cfg.pauseEtbControl) then
    .enableAndSet (ETB_PERCENT_TO_DUTY outputValue.Value)
  else .disableNoEtb

/-- EtbController::checkStatus: the fault-detection state machine.  Non-ETB
functions skip all validation.  ETB functions refresh the autotune latch and
the PID integral bounds, count newly-begun invalid reads of the position and
pedal sensors (resetting both counters in autotune or when analog sensors
are not expected to work), and classify the fault in priority order
IntermittentTps, EngineStopped, IntermittentPps, Lua. -/
def EtbController.checkStatus (s : EtbState) (cfg : EtbConfig) (env : EtbEnv) :
    Bool × EtbState :=
  if !(isEtbMode s.m_function) then (true, s)
  else
    let s1 := { s with pidITermMin := cfg.etb_iTermMin
                       pidITermMax := cfg.etb_iTermMax
                       m_isAutotune := decide (sensorGetOrZero env .Rpm = 0) && env.etbAutoTune
                                         && decide (s.m_function = dc_function_e.DC_Throttle1) }
    let s2 : EtbState :=
      if !s1.m_isAutotune && env.analogSensorsShouldWork then
        let isTpsError := !(env.sensorGet s1.m_positionSensor).isSome
        let isPpsError := !(env.sensorGet .AcceleratorPedal).isSome
        { s1 with etbTpsErrorCounter :=
                    if isTpsError && !s1.hadTpsError then s1.etbTpsErrorCounter + 1
                    else s1.etbTpsErrorCounter
                  hadTpsError := isTpsError
                  etbPpsErrorCounter :=
                    if isPpsError && !s1.hadPpsError then s1.etbPpsErrorCounter + 1
                    else s1.etbPpsErrorCounter
                  hadPpsError := isPpsError }
      else
        { s1 with etbTpsErrorCounter := 0, etbPpsErrorCounter := 0 }
    let localReason :=
      if 50 < s2.etbTpsErrorCounter then TpsState.IntermittentTps
      else if cfg.disableEtbWhenEngineStopped && !env.engineMovedRecently then TpsState.EngineStopped
      else if 50 < s2.etbPpsErrorCounter then TpsState.IntermittentPps
      else if env.luaDisableEtb then TpsState.Lua
      else TpsState.None
    (decide (localReason = TpsState.None), { s2 with etbErrorCode := localReason })

/-- Modelled from the spec: ClosedLoopController::getOutput
(closed_loop_controller.h, not in the sources) — per spec section 4.1,
compute the setpoint, observe the plant, compute the open-loop and
closed-loop contributions and sum them; any invalid intermediate makes the
whole output invalid. -/
def EtbController.getOutput (s : EtbState) (cfg : EtbConfig) (env : EtbEnv) :
    Expected × EtbState :=
  let r1 := EtbController.getSetpoint s cfg env
  if !(r1.1.Valid) then (Expected.unexpected, r1.2)
  else
    let observation := EtbController.observePlant r1.2 env
    if !observation.Valid then (Expected.unexpected, r1.2)
    else
      let r2 := EtbController.getOpenLoop r1.2 env r1.1.Value
      if !(r2.1.Valid) then (Expected.unexpected, r2.2)
      else
        let r3 := EtbController.getClosedLoop r2.2 env r1.1.Value observation.Value
        if !(r3.1.Valid) then (Expected.unexpected, r3.2)
        else (Expected.ofValue (r2.1.Value + r3.1.Value), r3.2)

/-- Modelled from the spec: ClosedLoopController::update — compute the output,
route it (valid or not) through setOutput, and hand it back. -/
def EtbController.closedLoopUpdate (s : EtbState) (limp : LimpManager) (cfg : EtbConfig)
    (env : EtbEnv) : Expected × MotorCommand × EtbState :=
  let r := EtbController.getOutput s cfg env
  (r.1, EtbController.setOutput r.2 limp cfg r.1, r.2)

/-- EtbController::checkOutput: refresh the rolling duty / rate-of-change
averages (the averaging math is an external collaborator).  The jam-detection
block is compiled only for unit tests in the source and is omitted. -/
def EtbController.checkOutput (s : EtbState) (env : EtbEnv) (output : ℚ) : EtbState :=
  { s with etbDutyAverage := env.expAverageDuty (absF output)
           m_dutyAverage := env.expAverageDuty (absF output)
           etbDutyRateOfChange := env.expAverageRoc (absF (output - s.prevOutput))
           m_dutyRocAverage := env.expAverageRoc (absF (output - s.prevOutput))
           prevOutput := output }

/-- EtbController::update: the per-cycle entry point.  No motor: do nothing.
Manual direct duty override active: drive it and tag Manual.  Otherwise run
checkStatus; on failure disable the motor with the etb-status label, else run
the closed-loop update and the output bookkeeping. -/
def EtbController.update (s : EtbState) (limp : LimpManager) (cfg : EtbConfig)
    (env : EtbEnv) : MotorCommand × EtbState :=
  if !s.m_motor then (.noAction, s)
  else
    match env.directPwmValue with
    | some d => (.setDirect d, { s with etbErrorCode := TpsState.Manual })
    | none =>
      let rc := EtbController.checkStatus s cfg env
      if !rc.1 then (.disableEtbStatus, rc.2)
      else
        let r := EtbController.closedLoopUpdate rc.2 limp cfg env
        if !(r.1.Valid) then (r.2.1, r.2.2)
        else (r.2.1, EtbController.checkOutput r.2.2 env r.1.Value)

lemma le_clampF (lo x hi : ℚ) : lo ≤ clampF lo x hi :=
  le_max_left lo (min x hi)

lemma clampF_le (lo x hi : ℚ) (h : lo ≤ hi) : clampF lo x hi ≤ hi :=
  max_le h (min_le_right x hi)

/-- Claim C1: with the motor present, setOutput enables the motor and drives it
with the clamped duty exactly when the function is non-ETB (idle valve /
wastegate) or all of {the limp manager currently allows ETB, the output value
is valid, pauseEtbControl is clear} hold; in every other case it disables the
motor.  The gate is a function of the limp manager state passed in on the
current call only: any two limp states agreeing on allowElectronicThrottle
yield the same command, and nothing from earlier calls is consulted. -/
theorem setOutput_gate (s : EtbState) (limp limp' : LimpManager) (cfg : EtbConfig)
    (out : Expected) (hm : s.m_motor = true)
    (hsame : limp.allowElectronicThrottle = limp'.allowElectronicThrottle) :
    ((EtbController.setOutput s limp cfg out
        = MotorCommand.enableAndSet (ETB_PERCENT_TO_DUTY out.Value)) ↔
      (isEtbMode s.m_function = false ∨
        (limp.allowElectronicThrottle = true ∧ out.Valid = true ∧ cfg.pauseEtbControl = false))) ∧
    ((EtbController.setOutput s limp cfg out = MotorCommand.disableNoEtb) ↔
      ¬(isEtbMode s.m_function = false ∨
        (limp.allowElectronicThrottle = true ∧ out.Valid = true ∧ cfg.pauseEtbControl = false))) ∧
    EtbController.setOutput s limp cfg out = EtbController.setOutput s limp' cfg out := by
  refine ⟨?_, ?_, ?_⟩
  · unfold EtbController.setOutput
    rw [hm]
    cases h1 : isEtbMode s.m_function <;>
      cases h2 : limp.allowElectronicThrottle <;>
        cases h3 : out.Valid <;>
          cases h4 : cfg.pauseEtbControl <;>
            simp_all
  · unfold EtbController.setOutput
    rw [hm]
    cases h1 : isEtbMode s.m_function <;>
      cases h2 : limp.allowElectronicThrottle <;>
        cases h3 : out.Valid <;>
          cases h4 : cfg.pauseEtbControl <;>
            simp_all
  · unfold EtbController.setOutput
    rw [hsame]

/-- A fresh, never-initialized controller state: everything zero / false / None. -/
def etbState0 : EtbState :=
  { m_function := .DC_None
    m_positionSensor := .Invalid
    m_motor := false
    m_pidParams := none
    m_pedalProvider := false
    m_errorAccumulatorIgnore := 0
    m_errorAccumulatorPeriod := 0
    m_shouldResetPid := false
    etbDutyRateOfChange := 0
    etbDutyAverage := 0
    m_dutyRocAverage := 0
    m_dutyAverage := 0
    etbTpsErrorCounter := 0
    etbPpsErrorCounter := 0
    hadTpsError := false
    hadPpsError := false
    etbErrorCode := .None
    m_isAutotune := false
    m_idlePosition := 0
    m_wastegatePosition := 0
    luaAdjustment := 0
    m_luaAdjustmentTimer := 0
    etbRevLimitActive := false
    etbCurrentTarget := 0
    targetWithIdlePosition := 0
    etbCurrentAdjustedTarget := 0
    trim := 0
    tcEtbDrop := 0
    etbFeedForward := 0
    etbIntegralError := 0
    prevOutput := 0
    pidITermMin := 0
    pidITermMax := 0
    m_lastIsPositive := false
    m_autotuneCycleStart := 0
    m_minCycleTps := 100
    m_maxCycleTps := 0
    m_a := 0
    m_tu := 0 }

/-- A concrete first-throttle controller with motor and pedal map attached. -/
def etbStateEtb1 : EtbState :=
  { etbState0 with m_function := .DC_Throttle1
                   m_positionSensor := .Tps1
                   m_motor := true
                   m_pedalProvider := true }

/-- A concrete throttle configuration. -/
def etbConfig0 : EtbConfig :=
  { etbIdleThrottleRange := 15
    ALSEtbAdd := 0
    etbRevLimitStart := 6000
    etbRevLimitRange := 500
    etbMinimumPosition := 1
    etbMaximumPosition := 90
    pauseEtbControl := false
    etb_iTermMin := -30
    etb_iTermMax := 30
    disableEtbWhenEngineStopped := false }

/-- A concrete healthy cycle environment. -/
def etbEnv0 : EtbEnv :=
  { sensorGet := fun t =>
      if t = .AcceleratorPedal then some 40
      else if t = .Tps1 then some 30
      else if t = .Rpm then some 1200
      else none
    pedalMap := fun _ p => p
    throttleTrimTable := fun _ _ => 0
    tcEtbDropTable := fun _ _ => 0
    etbBiasCurve := fun _ => 0
    isAntilagCondition := false
    etbAutoTune := false
    analogSensorsShouldWork := true
    engineMovedRecently := true
    luaDisableEtb := false
    directPwmValue := none
    now := 10
    pidOutput := fun _ _ => 0
    errorAccumulate := fun _ => 0
    expAverageDuty := fun x => x
    expAverageRoc := fun x => x }

/-- Witness for C1 at a concrete controller, limp state and output. -/
theorem setOutput_gate_witness :
    ((EtbController.setOutput etbStateEtb1 limpState0 etbConfig0 (Expected.ofValue 42)
        = MotorCommand.enableAndSet (ETB_PERCENT_TO_DUTY (Expected.ofValue 42).Value)) ↔
      (isEtbMode etbStateEtb1.m_function = false ∨
        (limpState0.allowElectronicThrottle = true ∧ (Expected.ofValue 42).Valid = true ∧
          etbConfig0.pauseEtbControl = false))) ∧
    ((EtbController.setOutput etbStateEtb1 limpState0 etbConfig0 (Expected.ofValue 42)
        = MotorCommand.disableNoEtb) ↔
      ¬(isEtbMode etbStateEtb1.m_function = false ∨
        (limpState0.allowElectronicThrottle = true ∧ (Expected.ofValue 42).Valid = true ∧
          etbConfig0.pauseEtbControl = false))) ∧
    EtbController.setOutput etbStateEtb1 limpState0 etbConfig0 (Expected.ofValue 42)
      = EtbController.setOutput etbStateEtb1 { limpState0 with m_lastCutTime := 5 } etbConfig0
          (Expected.ofValue 42) :=
  setOutput_gate etbStateEtb1 limpState0 { limpState0 with m_lastCutTime := 5 } etbConfig0
    (Expected.ofValue 42) rfl rfl

/-- Claim C10: a controller whose function is non-ETB (idle valve or wastegate)
passes checkStatus unconditionally and with its state untouched — the
intermittent TPS/PPS counters, the engine-stopped check and the Lua disable
apply only to ETB-mode controllers. -/
theorem checkStatus_nonEtb_always_ok (s : EtbState) (cfg : EtbConfig) (env : EtbEnv) :
    EtbController.checkStatus { s with m_function := .DC_IdleValve } cfg env
        = (true, { s with m_function := .DC_IdleValve }) ∧
    EtbController.checkStatus { s with m_function := .DC_Wastegate } cfg env
        = (true, { s with m_function := .DC_Wastegate }) :=
  ⟨rfl, rfl⟩

/-- Claim C8: getLuaAdjustment returns the last-set value while it is at most
0.2 seconds old and exactly 0 once it is older, and a stale adjustment
contributes exactly 0 to the ETB setpoint: with the freshness timer expired,
getSetpointEtb is insensitive to the stored adjustment value. -/
theorem getLuaAdjustment_staleness (c : EtbState) (a t0 t1 x : ℚ) (cfg : EtbConfig)
    (env : EtbEnv) (hstale : (1 : ℚ)/5 < env.now - c.m_luaAdjustmentTimer) :
    (EtbController.getLuaAdjustment (EtbController.setLuaAdjustment c a t0) t1
        = if (1 : ℚ)/5 < t1 - t0 then 0 else a) ∧
    EtbController.getLuaAdjustment c env.now = 0 ∧
    (EtbController.getSetpointEtb c cfg env).1
        = (EtbController.getSetpointEtb { c with luaAdjustment := x } cfg env).1 := by
  refine ⟨rfl, ?_, ?_⟩
  · unfold EtbController.getLuaAdjustment
    split
    · rfl
    · rename_i hcond; exact absurd hstale hcond
  · have h0 : ∀ st : EtbState, st.m_luaAdjustmentTimer = c.m_luaAdjustmentTimer →
        EtbController.getLuaAdjustment st env.now = 0 := by
      intro st hst
      unfold EtbController.getLuaAdjustment
      rw [hst, if_pos hstale]
    cases hb : c.m_isAutotune <;> cases hp : c.m_pedalProvider <;>
      simp [EtbController.getSetpointEtb, hb, hp, h0]

/-- Witness for C8: with the stored adjustment 5 set 10 seconds ago, the
adjustment read back is 0 and the setpoint ignores the stored value. -/
theorem getLuaAdjustment_staleness_witness :
    (EtbController.getLuaAdjustment (EtbController.setLuaAdjustment etbStateEtb1 5 0) 10
        = if (1 : ℚ)/5 < 10 - 0 then 0 else 5) ∧
    EtbController.getLuaAdjustment etbStateEtb1 etbEnv0.now = 0 ∧
    (EtbController.getSetpointEtb etbStateEtb1 etbConfig0 etbEnv0).1
        = (EtbController.getSetpointEtb { etbStateEtb1 with luaAdjustment := 5 } etbConfig0 etbEnv0).1 :=
  getLuaAdjustment_staleness etbStateEtb1 5 0 10 5 etbConfig0 etbEnv0 (by norm_num [etbEnv0, etbStateEtb1, etbState0])

/-- Claim C4: on an initialized ETB-mode controller outside autotune, whatever
the pedal table, idle addition, trim, traction drop, Lua adjustment, antilag
addition and rev-limit taper contribute, the returned setpoint is valid and
lies inside the configured window [etbMinimumPosition,
min(etbMaximumPosition, 100)] (stated for a well-formed window). -/
theorem getSetpointEtb_bounded (s : EtbState) (cfg : EtbConfig) (env : EtbEnv)
    (hauto : s.m_isAutotune = false) (hprov : s.m_pedalProvider = true)
    (hwin : cfg.etbMinimumPosition ≤ minF cfg.etbMaximumPosition 100) :
    ((EtbController.getSetpointEtb s cfg env).1).Valid = true ∧
    cfg.etbMinimumPosition ≤ ((EtbController.getSetpointEtb s cfg env).1).Value ∧
    ((EtbController.getSetpointEtb s cfg env).1).Value ≤ minF cfg.etbMaximumPosition 100 := by
  refine ⟨?_, ?_, ?_⟩
  · simp [EtbController.getSetpointEtb, hauto, hprov, Expected.ofValue]
  · simp only [EtbController.getSetpointEtb, hauto, hprov, Bool.not_true, Bool.false_eq_true,
      if_false, ite_false, Expected.ofValue]
    exact le_clampF _ _ _
  · simp only [EtbController.getSetpointEtb, hauto, hprov, Bool.not_true, Bool.false_eq_true,
      if_false, ite_false, Expected.ofValue]
    exact clampF_le _ _ _ hwin

/-- Witness for C4 at a concrete controller, configuration and environment. -/
theorem getSetpointEtb_bounded_witness :
    ((EtbController.getSetpointEtb etbStateEtb1 etbConfig0 etbEnv0).1).Valid = true ∧
    etbConfig0.etbMinimumPosition ≤ ((EtbController.getSetpointEtb etbStateEtb1 etbConfig0 etbEnv0).1).Value ∧
    ((EtbController.getSetpointEtb etbStateEtb1 etbConfig0 etbEnv0).1).Value
      ≤ minF etbConfig0.etbMaximumPosition 100 :=
  getSetpointEtb_bounded etbStateEtb1 etbConfig0 etbEnv0 rfl rfl
    (by norm_num [etbConfig0, minF])

lemma interpolateClamped_at_left (x1 y1 x2 y2 : ℚ) :
    interpolateClamped x1 y1 x2 y2 x1 = y1 := by
  unfold interpolateClamped
  rw [if_pos le_rfl]

lemma interpolateClamped_at_right (x1 y1 x2 y2 : ℚ) (h : x1 < x2) :
    interpolateClamped x1 y1 x2 y2 x2 = y2 := by
  unfold interpolateClamped
  rw [if_neg (by linarith), if_pos le_rfl]

lemma interpolateClamped_taper_strict (x1 T range r1 r2 : ℚ)
    (hT : 0 < T) (hrange : 0 < range)
    (h1 : x1 ≤ r1) (h12 : r1 < r2) (h2 : r2 ≤ x1 + range) :
    interpolateClamped x1 T (x1 + range) 0 r2 < interpolateClamped x1 T (x1 + range) 0 r1 := by
  unfold interpolateClamped
  have hx2 : x1 + range - x1 = range := by ring
  rw [hx2]
  by_cases ha : r1 ≤ x1
  · rw [if_pos ha]
    have hb : ¬ r2 ≤ x1 := by linarith
    rw [if_neg hb]
    by_cases hc : x1 + range ≤ r2
    · rw [if_pos hc]
      exact hT
    · rw [if_neg hc]
      have hpos : 0 < r2 - x1 := by linarith
      have hneg : (0 - T) / range < 0 := div_neg_of_neg_of_pos (by linarith) hrange
      have hprod : (0 - T) / range * (r2 - x1) < 0 := mul_neg_of_neg_of_pos hneg hpos
      linarith
  · rw [if_neg ha]
    have hd : ¬ (x1 + range ≤ r1) := by linarith
    rw [if_neg hd]
    have hb : ¬ r2 ≤ x1 := by linarith
    rw [if_neg hb]
    by_cases hc : x1 + range ≤ r2
    · rw [if_pos hc]
      have key : T + (0 - T) / range * (r1 - x1) = T * (1 - (r1 - x1) / range) := by
        field_simp
        ring
      rw [key]
      have hlt : (r1 - x1) / range < 1 := (div_lt_one hrange).mpr (by linarith)
      have hfac : 0 < 1 - (r1 - x1) / range := by linarith
      exact mul_pos hT hfac
    · rw [if_neg hc]
      have hneg : (0 - T) / range < 0 := div_neg_of_neg_of_pos (by linarith) hrange
      have hmul := mul_lt_mul_of_neg_left (show r1 - x1 < r2 - x1 by linarith) hneg
      linarith

/-- Claim C5: with a nonzero etbRevLimitStart (and a positive taper range), the
rev-limit stage of getSetpointEtb is the linear taper that holds the
pre-taper target T at RPM = etbRevLimitStart, reaches 0 at
RPM = etbRevLimitStart + etbRevLimitRange and is strictly decreasing across
that range for any fixed positive T; the setpoint returned is exactly the
taper of the pre-taper target clamped into the output window, and after the
call etbRevLimitActive holds if and only if the taper moved the target by
more than 0.1. -/
theorem getSetpointEtb_revLimit_taper (s : EtbState) (cfg : EtbConfig) (env : EtbEnv)
    (T r1 r2 : ℚ)
    (hauto : s.m_isAutotune = false) (hprov : s.m_pedalProvider = true)
    (hstart : cfg.etbRevLimitStart ≠ 0) (hrange : 0 < cfg.etbRevLimitRange)
    (hT : 0 < T) (hr1 : cfg.etbRevLimitStart ≤ r1) (h12 : r1 < r2)
    (hr2 : r2 ≤ cfg.etbRevLimitStart + cfg.etbRevLimitRange) :
    interpolateClamped cfg.etbRevLimitStart T (cfg.etbRevLimitStart + cfg.etbRevLimitRange) 0
        cfg.etbRevLimitStart = T ∧
    interpolateClamped cfg.etbRevLimitStart T (cfg.etbRevLimitStart + cfg.etbRevLimitRange) 0
        (cfg.etbRevLimitStart + cfg.etbRevLimitRange) = 0 ∧
    interpolateClamped cfg.etbRevLimitStart T (cfg.etbRevLimitStart + cfg.etbRevLimitRange) 0 r2
      < interpolateClamped cfg.etbRevLimitStart T (cfg.etbRevLimitStart + cfg.etbRevLimitRange) 0 r1 ∧
    (EtbController.getSetpointEtb s cfg env).1
      = Expected.ofValue (clampF cfg.etbMinimumPosition
          (interpolateClamped cfg.etbRevLimitStart (EtbController.getSetpointEtbPreTaper s cfg env)
            (cfg.etbRevLimitStart + cfg.etbRevLimitRange) 0 (sensorGetOrZero env .Rpm))
          (minF cfg.etbMaximumPosition 100)) ∧
    (((EtbController.getSetpointEtb s cfg env).2.etbRevLimitActive = true) ↔
      (1 : ℚ)/10 < absF (interpolateClamped cfg.etbRevLimitStart
            (EtbController.getSetpointEtbPreTaper s cfg env)
            (cfg.etbRevLimitStart + cfg.etbRevLimitRange) 0 (sensorGetOrZero env .Rpm)
          - EtbController.getSetpointEtbPreTaper s cfg env)) := by
  refine ⟨interpolateClamped_at_left _ _ _ _,
          interpolateClamped_at_right _ _ _ _ (by linarith),
          interpolateClamped_taper_strict _ _ _ _ _ hT hrange hr1 h12 hr2, ?_, ?_⟩
  · simp [EtbController.getSetpointEtb, EtbController.getSetpointEtbPreTaper, hauto, hprov, hstart]
  · simp [EtbController.getSetpointEtb, EtbController.getSetpointEtbPreTaper, hauto, hprov, hstart]

/-- Witness for C5 at a concrete controller, configuration and environment. -/
theorem getSetpointEtb_revLimit_taper_witness :
    interpolateClamped etbConfig0.etbRevLimitStart 30
        (etbConfig0.etbRevLimitStart + etbConfig0.etbRevLimitRange) 0
        etbConfig0.etbRevLimitStart = 30 ∧
    interpolateClamped etbConfig0.etbRevLimitStart 30
        (etbConfig0.etbRevLimitStart + etbConfig0.etbRevLimitRange) 0
        (etbConfig0.etbRevLimitStart + etbConfig0.etbRevLimitRange) = 0 ∧
    interpolateClamped etbConfig0.etbRevLimitStart 30
        (etbConfig0.etbRevLimitStart + etbConfig0.etbRevLimitRange) 0 6200
      < interpolateClamped etbConfig0.etbRevLimitStart 30
          (etbConfig0.etbRevLimitStart + etbConfig0.etbRevLimitRange) 0 6100 ∧
    (EtbController.getSetpointEtb etbStateEtb1 etbConfig0 etbEnv0).1
      = Expected.ofValue (clampF etbConfig0.etbMinimumPosition
          (interpolateClamped etbConfig0.etbRevLimitStart
            (EtbController.getSetpointEtbPreTaper etbStateEtb1 etbConfig0 etbEnv0)
            (etbConfig0.etbRevLimitStart + etbConfig0.etbRevLimitRange) 0
            (sensorGetOrZero etbEnv0 .Rpm))
          (minF etbConfig0.etbMaximumPosition 100)) ∧
    (((EtbController.getSetpointEtb etbStateEtb1 etbConfig0 etbEnv0).2.etbRevLimitActive = true) ↔
      (1 : ℚ)/10 < absF (interpolateClamped etbConfig0.etbRevLimitStart
            (EtbController.getSetpointEtbPreTaper etbStateEtb1 etbConfig0 etbEnv0)
            (etbConfig0.etbRevLimitStart + etbConfig0.etbRevLimitRange) 0
            (sensorGetOrZero etbEnv0 .Rpm)
          - EtbController.getSetpointEtbPreTaper etbStateEtb1 etbConfig0 etbEnv0)) :=
  getSetpointEtb_revLimit_taper etbStateEtb1 etbConfig0 etbEnv0 30 6100 6200 rfl rfl
    (by norm_num [etbConfig0]) (by norm_num [etbConfig0]) (by norm_num)
    (by norm_num [etbConfig0]) (by norm_num) (by norm_num [etbConfig0])

/-- Claim C7: the idle-compression mapping of getSetpointEtb sends table target
0 to the idle addition I and table target 100 to 100, is monotone
non-decreasing in the table target for a fixed I (at most 100), never exceeds
100, and is exactly the mapping getSetpointEtb applies between the pedal-table
target and targetWithIdlePosition. -/
theorem idleCompression_endpoints_monotone (s : EtbState) (cfg : EtbConfig) (env : EtbEnv)
    (I t t1 t2 : ℚ) (hI : I ≤ 100) (h12 : t1 ≤ t2)
    (hauto : s.m_isAutotune = false) (hprov : s.m_pedalProvider = true) :
    idleCompression I 0 = I ∧
    idleCompression I 100 = 100 ∧
    idleCompression I t1 ≤ idleCompression I t2 ∧
    idleCompression I t ≤ 100 ∧
    (EtbController.getSetpointEtb s cfg env).2.targetWithIdlePosition
      = idleCompression (PERCENT_DIV * cfg.etbIdleThrottleRange * clampPercentValue s.m_idlePosition)
          ((EtbController.getSetpointEtb s cfg env).2.etbCurrentTarget) := by
  have hmono : ∀ u v : ℚ, u ≤ v → idleCompression I u ≤ idleCompression I v := by
    intro u v huv
    unfold idleCompression interpolateClamped
    by_cases hu0 : u ≤ 0
    · rw [if_pos hu0]
      by_cases hv0 : v ≤ 0
      · rw [if_pos hv0]
      · rw [if_neg hv0]
        by_cases hv1 : (100 : ℚ) ≤ v
        · rw [if_pos hv1]
          exact hI
        · rw [if_neg hv1]
          have hc : 0 ≤ (100 - I) / ((100 : ℚ) - 0) := by
            apply div_nonneg <;> linarith
          have hv : (0 : ℚ) ≤ v - 0 := by
            have := not_le.mp hv0
            linarith
          nlinarith [mul_nonneg hc hv]
    · rw [if_neg hu0]
      have hu : (0 : ℚ) < u := not_le.mp hu0
      by_cases hu1 : (100 : ℚ) ≤ u
      · rw [if_pos hu1]
        have hv1 : (100 : ℚ) ≤ v := le_trans hu1 huv
        have hv0 : ¬ v ≤ 0 := by linarith
        rw [if_neg hv0, if_pos hv1]
      · rw [if_neg hu1]
        have hv0 : ¬ v ≤ 0 := by linarith
        rw [if_neg hv0]
        by_cases hv1 : (100 : ℚ) ≤ v
        · rw [if_pos hv1]
          have key : I + (100 - I) / ((100 : ℚ) - 0) * (u - 0) = I + (100 - I) * (u / 100) := by
            ring
          rw [key]
          have hu100 : u / 100 < 1 := (div_lt_one (by norm_num)).mpr (by linarith)
          have hpos : (0 : ℚ) ≤ 100 - I := by linarith
          nlinarith [mul_le_mul_of_nonneg_left (le_of_lt hu100) hpos]
        · rw [if_neg hv1]
          have hc : 0 ≤ (100 - I) / ((100 : ℚ) - 0) := by
            apply div_nonneg <;> linarith
          have := mul_le_mul_of_nonneg_left (show u - 0 ≤ v - 0 by linarith) hc
          linarith
  have hat0 : idleCompression I 0 = I := interpolateClamped_at_left _ _ _ _
  have hat100 : idleCompression I 100 = 100 :=
    interpolateClamped_at_right _ _ _ _ (by norm_num)
  refine ⟨hat0, hat100, hmono t1 t2 h12, ?_, ?_⟩
  · by_cases ht : t ≤ 100
    · calc idleCompression I t ≤ idleCompression I 100 := hmono t 100 ht
        _ = 100 := hat100
    · unfold idleCompression interpolateClamped
      rw [if_neg (by linarith), if_pos (by linarith)]
  · simp [EtbController.getSetpointEtb, idleCompression, hauto, hprov]

/-- Witness for C7 at concrete values. -/
theorem idleCompression_endpoints_monotone_witness :
    idleCompression 12 0 = 12 ∧
    idleCompression 12 100 = 100 ∧
    idleCompression 12 10 ≤ idleCompression 12 20 ∧
    idleCompression 12 50 ≤ 100 ∧
    (EtbController.getSetpointEtb etbStateEtb1 etbConfig0 etbEnv0).2.targetWithIdlePosition
      = idleCompression (PERCENT_DIV * etbConfig0.etbIdleThrottleRange
            * clampPercentValue etbStateEtb1.m_idlePosition)
          ((EtbController.getSetpointEtb etbStateEtb1 etbConfig0 etbEnv0).2.etbCurrentTarget) :=
  idleCompression_endpoints_monotone etbStateEtb1 etbConfig0 etbEnv0 12 50 10 20
    (by norm_num) (by norm_num) rfl rfl

/-- A cycle environment whose throttle position sensor is dead (always invalid)
while the pedal stays valid; engine stopped, autotune off, sensor checking on. -/
def etbEnvTpsDead : EtbEnv :=
  { etbEnv0 with sensorGet := fun t => if t = .AcceleratorPedal then some 20 else none }

/-- Iterate the checkStatus state machine for a number of update cycles. -/
def checkStatusIter (cfg : EtbConfig) (env : EtbEnv) : ℕ → EtbState → EtbState
| 0, s => s
| n + 1, s => checkStatusIter cfg env n (EtbController.checkStatus s cfg env).2

set_option maxRecDepth 8000 in
/-- Counterexample for C6: starting from a fresh ETB controller, the throttle
position sensor reads invalid on 51 consecutive update cycles, yet the 51st
checkStatus still returns true with fault code None, because the error counter
counts newly-begun fault episodes (it is 1, not 51, after the run) — and
update does not take the fault-disable path on that cycle. -/
theorem checkStatus_consecutive_invalid_counterexample :
    (EtbController.checkStatus (checkStatusIter etbConfig0 etbEnvTpsDead 50 etbStateEtb1)
        etbConfig0 etbEnvTpsDead).1 = true ∧
    (EtbController.checkStatus (checkStatusIter etbConfig0 etbEnvTpsDead 50 etbStateEtb1)
        etbConfig0 etbEnvTpsDead).2.etbErrorCode = TpsState.None ∧
    (checkStatusIter etbConfig0 etbEnvTpsDead 51 etbStateEtb1).etbTpsErrorCounter = 1 ∧
    (EtbController.update (checkStatusIter etbConfig0 etbEnvTpsDead 50 etbStateEtb1) limpState0
        etbConfig0 etbEnvTpsDead).1 ≠ MotorCommand.disableEtbStatus := by
  refine ⟨rfl, rfl, rfl, ?_⟩
  decide

/-- Claim C6 as amended: the IntermittentTps trip requires the counter of
distinct fault events to exceed 50 — on a cycle where the position sensor
reads invalid after a valid reading (a newly-begun fault episode) with the
counter already at 50, checkStatus returns false with etbErrorCode
IntermittentTps and update disables the motor with the etb-status label. -/
theorem checkStatus_tps_fault_threshold (s : EtbState) (cfg : EtbConfig) (env : EtbEnv)
    (limp : LimpManager)
    (hfunc : isEtbMode s.m_function = true)
    (hat : env.etbAutoTune = false)
    (hcheck : env.analogSensorsShouldWork = true)
    (hinv : (env.sensorGet s.m_positionSensor).isSome = false)
    (hhad : s.hadTpsError = false)
    (hcnt : 50 ≤ s.etbTpsErrorCounter)
    (hmotor : s.m_motor = true)
    (hdirect : env.directPwmValue = none) :
    (EtbController.checkStatus s cfg env).1 = false ∧
    (EtbController.checkStatus s cfg env).2.etbErrorCode = TpsState.IntermittentTps ∧
    EtbController.update s limp cfg env
      = (MotorCommand.disableEtbStatus, (EtbController.checkStatus s cfg env).2) := by
  have hlt : 50 < s.etbTpsErrorCounter + 1 := Nat.lt_succ_of_le hcnt
  have hfirst : (EtbController.checkStatus s cfg env).1 = false := by
    simp [EtbController.checkStatus, hfunc, hat, hcheck, hinv, hhad, hlt]
  have hsecond : (EtbController.checkStatus s cfg env).2.etbErrorCode = TpsState.IntermittentTps := by
    simp [EtbController.checkStatus, hfunc, hat, hcheck, hinv, hhad, hlt]
  refine ⟨hfirst, hsecond, ?_⟩
  simp [EtbController.update, hmotor, hdirect, hfirst]

/-- Witness for the amended C6 at a concrete controller with 50 recorded fault
events and a freshly failed sensor. -/
theorem checkStatus_tps_fault_threshold_witness :
    (EtbController.checkStatus { etbStateEtb1 with etbTpsErrorCounter := 50 }
        etbConfig0 etbEnvTpsDead).1 = false ∧
    (EtbController.checkStatus { etbStateEtb1 with etbTpsErrorCounter := 50 }
        etbConfig0 etbEnvTpsDead).2.etbErrorCode = TpsState.IntermittentTps ∧
    EtbController.update { etbStateEtb1 with etbTpsErrorCounter := 50 } limpState0
        etbConfig0 etbEnvTpsDead
      = (MotorCommand.disableEtbStatus,
          (EtbController.checkStatus { etbStateEtb1 with etbTpsErrorCounter := 50 }
            etbConfig0 etbEnvTpsDead).2) :=
  checkStatus_tps_fault_threshold { etbStateEtb1 with etbTpsErrorCounter := 50 }
    etbConfig0 etbEnvTpsDead limpState0 rfl rfl rfl rfl rfl (by norm_num) rfl rfl

/-- A zeroed PID parameter block. -/
def pid0 : pid_s :=
  { pFactor := 0, iFactor := 0, dFactor := 0, offset := 0, periodMs := 0,
    minValue := 0, maxValue := 0 }

/-- A sensor world where every sensor exists and is redundant. -/
def senv0 : SensorEnv :=
  { hasSensor := fun _ => true, isRedundant := fun _ => true }

/-- Counterexample for C9: init on a fresh controller with an ETB function but
no pedal fails as expected, yet it has already overwritten m_function and
m_positionSensor (state beyond the fault code), and the fault code it records
for the missing pedal is TpsState.None — the same code as the
nothing-configured case, not a distinct pedal-specific code. -/
theorem init_missing_pedal_counterexample :
    (EtbController.init etbState0 .DC_Throttle1 true pid0 true false senv0).1 = false ∧
    (EtbController.init etbState0 .DC_Throttle1 true pid0 true false senv0).2.m_function
      = .DC_Throttle1 ∧
    etbState0.m_function = .DC_None ∧
    (EtbController.init etbState0 .DC_Throttle1 true pid0 true false senv0).2.m_positionSensor
      = .Tps1 ∧
    etbState0.m_positionSensor = .Invalid ∧
    (EtbController.init etbState0 .DC_Throttle1 true pid0 true false senv0).2.etbErrorCode
      = TpsState.None :=
  ⟨rfl, rfl, rfl, rfl, rfl, rfl⟩

/-- Claim C9 as amended: whenever init returns false it records a fault code
(None for an unconfigured function and also for a missing pedal, TpsError for
a missing throttle position sensor, Redundancy for a non-redundant TPS or
pedal), never attaches the motor, and leaves every part of the controller
state untouched except the fault code — and, for a non-None function, the
m_function / m_positionSensor fields, which the source assigns before
validating. -/
theorem init_failure_fails_closed (s : EtbState) (f : dc_function_e) (motor : Bool)
    (pid : pid_s) (prov hasPedal : Bool) (senv : SensorEnv)
    (hfail : (EtbController.init s f motor pid prov hasPedal senv).1 = false) :
    ((EtbController.init s f motor pid prov hasPedal senv).2
      = { s with
            etbErrorCode := (EtbController.init s f motor pid prov hasPedal senv).2.etbErrorCode
            m_function := (EtbController.init s f motor pid prov hasPedal senv).2.m_function
            m_positionSensor :=
              (EtbController.init s f motor pid prov hasPedal senv).2.m_positionSensor }) ∧
    (EtbController.init s f motor pid prov hasPedal senv).2.m_motor = s.m_motor ∧
    (f = .DC_None →
      (EtbController.init s f motor pid prov hasPedal senv).2.etbErrorCode = TpsState.None ∧
      (EtbController.init s f motor pid prov hasPedal senv).2.m_function = s.m_function ∧
      (EtbController.init s f motor pid prov hasPedal senv).2.m_positionSensor
        = s.m_positionSensor) ∧
    (f ≠ .DC_None →
      isEtbMode f = true ∧
      (EtbController.init s f motor pid prov hasPedal senv).2.m_function = f ∧
      (EtbController.init s f motor pid prov hasPedal senv).2.m_positionSensor
        = functionToPositionSensor f ∧
      (hasPedal = false →
        (EtbController.init s f motor pid prov hasPedal senv).2.etbErrorCode = TpsState.None) ∧
      (hasPedal = true → senv.hasSensor (functionToTpsSensor f) = false →
        (EtbController.init s f motor pid prov hasPedal senv).2.etbErrorCode = TpsState.TpsError) ∧
      (hasPedal = true → senv.hasSensor (functionToTpsSensor f) = true →
        (EtbController.init s f motor pid prov hasPedal senv).2.etbErrorCode
          = TpsState.Redundancy)) := by
  cases f with
  | DC_None =>
    refine ⟨rfl, rfl, ?_, ?_⟩
    · intro _
      exact ⟨rfl, rfl, rfl⟩
    · intro hne
      exact absurd rfl hne
  | DC_IdleValve =>
    exfalso
    simp [EtbController.init, isEtbMode] at hfail
  | DC_Wastegate =>
    exfalso
    simp [EtbController.init, isEtbMode] at hfail
  | DC_Throttle1 =>
    cases hasPedal with
    | false =>
      refine ⟨rfl, rfl, ?_, ?_⟩
      · intro h
        exact nomatch h
      · intro _
        refine ⟨rfl, rfl, rfl, fun _ => rfl, ?_, ?_⟩
        · intro h _
          exact nomatch h
        · intro h _
          exact nomatch h
    | true =>
      cases hs : senv.hasSensor SensorType.Tps1 with
      | false =>
        have hred : EtbController.init s .DC_Throttle1 motor pid prov true senv
            = (false, { s with m_function := .DC_Throttle1
                               m_positionSensor := .Tps1
                               etbErrorCode := TpsState.TpsError }) := by
          simp [EtbController.init, isEtbMode, functionToTpsSensor, functionToPositionSensor, hs]
        rw [hred]
        refine ⟨rfl, rfl, ?_, ?_⟩
        · intro h
          exact nomatch h
        · intro _
          refine ⟨rfl, rfl, rfl, ?_, fun _ _ => rfl, ?_⟩
          · intro h
            exact nomatch h
          · intro _ h
            simp only [functionToTpsSensor] at h
            rw [h] at hs
            exact nomatch hs
      | true =>
        cases hr : senv.isRedundant SensorType.Tps1 with
        | false =>
          have hred : EtbController.init s .DC_Throttle1 motor pid prov true senv
              = (false, { s with m_function := .DC_Throttle1
                                 m_positionSensor := .Tps1
                                 etbErrorCode := TpsState.Redundancy }) := by
            simp [EtbController.init, isEtbMode, functionToTpsSensor, functionToPositionSensor, hs, hr]
          rw [hred]
          refine ⟨rfl, rfl, ?_, ?_⟩
          · intro h
            exact nomatch h
          · intro _
            refine ⟨rfl, rfl, rfl, ?_, ?_, fun _ _ => rfl⟩
            · intro h
              exact nomatch h
            · intro _ h
              simp only [functionToTpsSensor] at h
              rw [h] at hs
              exact nomatch hs
        | true =>
          cases hp : senv.isRedundant SensorType.AcceleratorPedal with
          | false =>
            have hred : EtbController.init s .DC_Throttle1 motor pid prov true senv
                = (false, { s with m_function := .DC_Throttle1
                                   m_positionSensor := .Tps1
                                   etbErrorCode := TpsState.Redundancy }) := by
              simp [EtbController.init, isEtbMode, functionToTpsSensor, functionToPositionSensor,
                hs, hr, hp]
            rw [hred]
            refine ⟨rfl, rfl, ?_, ?_⟩
            · intro h
              exact nomatch h
            · intro _
              refine ⟨rfl, rfl, rfl, ?_, ?_, fun _ _ => rfl⟩
              · intro h
                exact nomatch h
              · intro _ h
                simp only [functionToTpsSensor] at h
                rw [h] at hs
                exact nomatch hs
          | true =>
            exfalso
            simp [EtbController.init, isEtbMode, functionToTpsSensor, functionToPositionSensor,
              hs, hr, hp] at hfail
  | DC_Throttle2 =>
    cases hasPedal with
    | false =>
      refine ⟨rfl, rfl, ?_, ?_⟩
      · intro h
        exact nomatch h
      · intro _
        refine ⟨rfl, rfl, rfl, fun _ => rfl, ?_, ?_⟩
        · intro h _
          exact nomatch h
        · intro h _
          exact nomatch h
    | true =>
      cases hs : senv.hasSensor SensorType.Tps2 with
      | false =>
        have hred : EtbController.init s .DC_Throttle2 motor pid prov true senv
            = (false, { s with m_function := .DC_Throttle2
                               m_positionSensor := .Tps2
                               etbErrorCode := TpsState.TpsError }) := by
          simp [EtbController.init, isEtbMode, functionToTpsSensor, functionToPositionSensor, hs]
        rw [hred]
        refine ⟨rfl, rfl, ?_, ?_⟩
        · intro h
          exact nomatch h
        · intro _
          refine ⟨rfl, rfl, rfl, ?_, fun _ _ => rfl, ?_⟩
          · intro h
            exact nomatch h
          · intro _ h
            simp only [functionToTpsSensor] at h
            rw [h] at hs
            exact nomatch hs
      | true =>
        cases hr : senv.isRedundant SensorType.Tps2 with
        | false =>
          have hred : EtbController.init s .DC_Throttle2 motor pid prov true senv
              = (false, { s with m_function := .DC_Throttle2
                                 m_positionSensor := .Tps2
                                 etbErrorCode := TpsState.Redundancy }) := by
            simp [EtbController.init, isEtbMode, functionToTpsSensor, functionToPositionSensor, hs, hr]
          rw [hred]
          refine ⟨rfl, rfl, ?_, ?_⟩
          · intro h
            exact nomatch h
          · intro _
            refine ⟨rfl, rfl, rfl, ?_, ?_, fun _ _ => rfl⟩
            · intro h
              exact nomatch h
            · intro _ h
              simp only [functionToTpsSensor] at h
              rw [h] at hs
              exact nomatch hs
        | true =>
          cases hp : senv.isRedundant SensorType.AcceleratorPedal with
          | false =>
            have hred : EtbController.init s .DC_Throttle2 motor pid prov true senv
                = (false, { s with m_function := .DC_Throttle2
                                   m_positionSensor := .Tps2
                                   etbErrorCode := TpsState.Redundancy }) := by
              simp [EtbController.init, isEtbMode, functionToTpsSensor, functionToPositionSensor,
                hs, hr, hp]
            rw [hred]
            refine ⟨rfl, rfl, ?_, ?_⟩
            · intro h
              exact nomatch h
            · intro _
              refine ⟨rfl, rfl, rfl, ?_, ?_, fun _ _ => rfl⟩
              · intro h
                exact nomatch h
              · intro _ h
                simp only [functionToTpsSensor] at h
                rw [h] at hs
                exact nomatch hs
          | true =>
            exfalso
            simp [EtbController.init, isEtbMode, functionToTpsSensor, functionToPositionSensor,
              hs, hr, hp] at hfail

/-- Witness for the amended C9: a failed init (ETB function, no pedal) at
concrete inputs, with the theorem's conclusions projected out. -/
theorem init_failure_fails_closed_witness :
    (EtbController.init etbState0 .DC_Throttle1 true pid0 true false senv0).2.m_motor
      = etbState0.m_motor ∧
    isEtbMode .DC_Throttle1 = true ∧
    (EtbController.init etbState0 .DC_Throttle1 true pid0 true false senv0).2.etbErrorCode
      = TpsState.None := by
  have h := init_failure_fails_closed etbState0 .DC_Throttle1 true pid0 true false senv0 rfl
  have h4 := h.2.2.2 (by intro hx; cases hx)
  exact ⟨h.2.1, h4.1, h4.2.2.2.1 rfl⟩

end Rusefi
